import Mathlib

/-!
Verification of the ansible-mention-bot normalization-and-aggregation pipeline.

The Python sources (`reddit_monitor.py`, `twitter_monitor.py`,
`bluesky_monitor.py`, `mention_bot.py`) are embedded shallowly below:

* a platform record dict becomes a Lean structure whose fields are `Option`
  where the code reads them with `dict.get(key, default)` or they may be
  absent from the raw record;
* the external scorer (TextBlob) and the external timestamp parser
  (`datetime.fromisoformat`) are passed in as function parameters, since the
  pipeline only composes with their results;
* Python ints are `Int`, Python floats that the pipeline merely passes
  around are `Rat`;
* dict-valued results whose set of keys varies between branches (the
  sentiment result, the sentiment summary) use `Option` fields: `none`
  models an absent key.
-/

namespace AnsibleMentionBot

/-- Whitespace as Python's `str.split` / `str.isspace` see it (ASCII range). -/
def isPySpace (c : Char) : Bool :=
  c = ' ' || c = '\t' || c = '\n' || c = '\r' || c = '\x0B' || c = '\x0C'

/-- Python's `\w` character class, restricted to ASCII as used by the inputs
considered here: alphanumeric or underscore. -/
def isWordChar (c : Char) : Bool :=
  c.isAlphanum || c = '_'

/-- Python's `s.isspace()`: nonempty and every character is whitespace. -/
def pyIsSpace (s : String) : Bool :=
  !s.data.isEmpty && s.data.all isPySpace

/-- A Python value stored in the `raw_data` bag of a mention; the core never
interprets these. -/
inductive PyVal where
  | vnone : PyVal
  | vstr : String → PyVal
  | vint : Int → PyVal
  | vbool : Bool → PyVal
  | vrat : Rat → PyVal
  | vstrList : List String → PyVal
deriving DecidableEq, Repr

/-- The canonical mention record: the union of the top-level keys of the
dicts built by `RedditMonitor._extract_mention_data`,
`RedditMonitor._extract_comment_data`, `TwitterMonitor._extract_tweet_data`
and `BlueskyMonitor._extract_post_data`.  `author_display_name` and
`subreddit` are `Option` because each appears only in some sources' dicts;
`created_utc` is `Option` because the Twitter normalizer stores `None` when
the tweet has no `created_at`.  The numeric Twitter tweet id is carried as
its decimal string in the string-typed `id` field. -/
structure Mention where
  platform : String
  type : String
  id : String
  title : String
  content : String
  author : String
  author_display_name : Option String
  subreddit : Option String
  url : String
  score : Int
  num_comments : Int
  created_utc : Option String
  keyword_matched : String
  sentiment_score : Rat
  sentiment_label : String
  raw_data : List (String × PyVal)
deriving DecidableEq, Repr

/-- Recursion core of `BlueskyMonitor._deduplicate_mentions`: `seen` models
the `seen_ids` set.  The source appends a mention only under
`if post_id and post_id not in seen_ids:`; every other mention (empty id, or
id already seen) is skipped. -/
def dedupGo (seen : List String) : List Mention → List Mention
  | [] => []
  | m :: ms =>
    if m.id ≠ "" ∧ m.id ∉ seen then m :: dedupGo (m.id :: seen) ms
    else dedupGo seen ms

/-- `BlueskyMonitor._deduplicate_mentions`. -/
def deduplicate_mentions (mentions : List Mention) : List Mention :=
  dedupGo [] mentions

/-- The tail of `BlueskyMonitor.search_mentions` (lines 78-80): the candidate
mentions accumulated for this source are deduplicated and truncated to
`max_results` before being returned to the orchestrator. -/
def bluesky_search_result (candidates : List Mention) (max_results : Nat) : List Mention :=
  (deduplicate_mentions candidates).take max_results

/-- `MentionBot.collect_mentions`: each monitor's `search_mentions` result is
extended into `all_mentions` in order (Reddit, Twitter, Bluesky); a disabled
or failing monitor contributes the empty list.  No deduplication happens at
this level. -/
def collect_mentions (reddit_mentions twitter_mentions bluesky_mentions : List Mention) :
    List Mention :=
  reddit_mentions ++ twitter_mentions ++ bluesky_mentions

/-- A concrete mention whose collaborator-supplied `id` is the empty
string. -/
def emptyIdMention : Mention :=
  ⟨"bluesky", "post", "", "Post by @unknown", "ansible is handy", "unknown",
   some "unknown", none, "https://bsky.app/profile/unknown", 0, 0, some "",
   "ansible", 0, "neutral", []⟩

/-- Does the text start a match of the pattern `http\S+|www\S+|https\S+`
here?  `http` (hence also `https`) or `www` followed by at least one
non-whitespace character.  The `https\S+` alternative is subsumed by
`http\S+`. -/
def urlStart : List Char → Bool
  | 'h' :: 't' :: 't' :: 'p' :: d :: _ => !isPySpace d
  | 'w' :: 'w' :: 'w' :: d :: _ => !isPySpace d
  | _ => false

/-- One left-to-right scan of `re.sub(r'http\S+|www\S+|https\S+', '', text)`:
at a match start, the greedy `\S+` consumes the rest of the maximal
non-whitespace run, which is dropped.  The `fuel` argument only bounds the
recursion; `removeUrls` supplies `l.length`, which suffices because every
step consumes at least one character. -/
def removeUrlsF : Nat → List Char → List Char
  | 0, l => l
  | _ + 1, [] => []
  | fuel + 1, c :: cs =>
    if urlStart (c :: cs) then removeUrlsF fuel (cs.dropWhile (fun d => !isPySpace d))
    else c :: removeUrlsF fuel cs

/-- `re.sub(r'http\S+|www\S+|https\S+', '', text)`. -/
def removeUrls (l : List Char) : List Char :=
  removeUrlsF l.length l

/-- Is the head of the list a character of class `cls`? -/
def headIs (cls : Char → Bool) : List Char → Bool
  | [] => false
  | c :: _ => cls c

/-- One left-to-right scan of `re.sub('@' + cls + '+', '', text)` for a
character class `cls`: an `@` followed by at least one `cls` character is
dropped together with the maximal `cls` run after it.  Fuel as in
`removeUrlsF`. -/
def removeAtRunsF (cls : Char → Bool) : Nat → List Char → List Char
  | 0, l => l
  | _ + 1, [] => []
  | fuel + 1, c :: cs =>
    if c = '@' ∧ headIs cls cs then removeAtRunsF cls fuel (cs.dropWhile cls)
    else c :: removeAtRunsF cls fuel cs

/-- `re.sub(r'@\w+', '', text)` (Twitter variant). -/
def removeMentionTokensW (l : List Char) : List Char :=
  removeAtRunsF isWordChar l.length l

/-- The character class `[\w.-]` of the Bluesky mention pattern. -/
def isHandleChar (c : Char) : Bool :=
  isWordChar c || c = '.' || c = '-'

/-- `re.sub(r'@[\w.-]+', '', text)` (Bluesky variant). -/
def removeMentionTokensH (l : List Char) : List Char :=
  removeAtRunsF isHandleChar l.length l

/-- `re.sub(r'#(\w+)', r'\1', text)`: a `#` followed by at least one word
character loses the `#`, keeping the word content.  Word characters are
never `#`, so re-scanning the kept content changes nothing. -/
def removeHashMarks : List Char → List Char
  | [] => []
  | '#' :: c :: cs =>
    if isWordChar c then c :: removeHashMarks cs
    else '#' :: removeHashMarks (c :: cs)
  | c :: cs => c :: removeHashMarks cs

/-- Accumulator pass of Python's `str.split()`: split on whitespace runs,
discarding empty pieces. -/
def pySplitAux : List Char → List Char → List (List Char)
  | [], acc => if acc.isEmpty then [] else [acc.reverse]
  | c :: cs, acc =>
    if isPySpace c then
      if acc.isEmpty then pySplitAux cs [] else acc.reverse :: pySplitAux cs []
    else pySplitAux cs (c :: acc)

/-- Python's `text.split()`. -/
def pySplit (l : List Char) : List (List Char) :=
  pySplitAux l []

/-- Python's `' '.join(words)`. -/
def joinWithSpace (ws : List (List Char)) : List Char :=
  List.intercalate [' '] ws

/-- Python's `text.strip()` (whitespace strip). -/
def pyStrip (l : List Char) : List Char :=
  ((l.dropWhile isPySpace).reverse.dropWhile isPySpace).reverse

/-- `TwitterMonitor._clean_text_for_sentiment`: URLs out, `@\w+` out,
`#(\w+)` down to `\1`, whitespace collapsed, then stripped. -/
def twitter_clean_text_for_sentiment (text : String) : String :=
  String.mk (pyStrip (joinWithSpace (pySplit
    (removeHashMarks (removeMentionTokensW (removeUrls text.data))))))

/-- `BlueskyMonitor._clean_text_for_sentiment`: same pipeline but the
mention pattern is `@[\w.-]+`. -/
def bluesky_clean_text_for_sentiment (text : String) : String :=
  String.mk (pyStrip (joinWithSpace (pySplit
    (removeHashMarks (removeMentionTokensH (removeUrls text.data))))))

/-- What `TextBlob(s).sentiment` supplies: TextBlob is an external
collaborator, so it enters the embedding as a function
`String → TextBlobSentiment`. -/
structure TextBlobSentiment where
  polarity : Rat
  subjectivity : Rat
deriving DecidableEq, Repr

/-- The dict returned by each monitor's `_analyze_sentiment`.  In the
empty/whitespace short-circuit branch the source builds
`{'polarity': 0.0, 'label': 'neutral'}` with no `subjectivity` key, so
`subjectivity` is an `Option`. -/
structure SentimentResult where
  polarity : Rat
  subjectivity : Option Rat
  label : String
deriving DecidableEq, Repr

/-- The label derivation shared verbatim by the three monitors:
`polarity > 0.1` positive, `polarity < -0.1` negative, else neutral. -/
def labelOfPolarity (polarity : Rat) : String :=
  if polarity > 1/10 then "positive"
  else if polarity < -(1/10) then "negative"
  else "neutral"

/-- `RedditMonitor._analyze_sentiment`: note it feeds `text` itself to the
scorer — this source has no cleaning step. -/
def reddit_analyze_sentiment (tb : String → TextBlobSentiment) (text : String) :
    SentimentResult :=
  if text = "" ∨ pyIsSpace text then ⟨0, none, "neutral"⟩
  else
    let s := tb text
    ⟨s.polarity, some s.subjectivity, labelOfPolarity s.polarity⟩

/-- `TwitterMonitor._analyze_sentiment`: the scorer sees the cleaned text. -/
def twitter_analyze_sentiment (tb : String → TextBlobSentiment) (text : String) :
    SentimentResult :=
  if text = "" ∨ pyIsSpace text then ⟨0, none, "neutral"⟩
  else
    let s := tb (twitter_clean_text_for_sentiment text)
    ⟨s.polarity, some s.subjectivity, labelOfPolarity s.polarity⟩

/-- `BlueskyMonitor._analyze_sentiment`: the scorer sees the cleaned text. -/
def bluesky_analyze_sentiment (tb : String → TextBlobSentiment) (text : String) :
    SentimentResult :=
  if text = "" ∨ pyIsSpace text then ⟨0, none, "neutral"⟩
  else
    let s := tb (bluesky_clean_text_for_sentiment text)
    ⟨s.polarity, some s.subjectivity, labelOfPolarity s.polarity⟩

/-- The `author` sub-dict of a raw Bluesky post (`post_data.get('author', {})`
reads it with per-key defaults, so every field is optional). -/
structure BskyAuthor where
  handle : Option String
  displayName : Option String
  did : Option String
  avatar : Option String
deriving DecidableEq, Repr

/-- A raw Bluesky post as `BlueskyMonitor._extract_post_data` reads it:
every field is accessed through `dict.get` with a default, so each is
optional here. -/
structure BskyPost where
  text : Option String
  cid : Option String
  uri : Option String
  createdAt : Option String
  indexedAt : Option String
  likeCount : Option Int
  repostCount : Option Int
  replyCount : Option Int
  author : Option BskyAuthor
deriving DecidableEq, Repr

/-- Python's `s.split(sep)` for a nonempty separator, on character lists:
left-to-right scan, non-overlapping matches, consecutive separators produce
empty pieces.  `acc` holds the current piece reversed; the fuel only bounds
the recursion (each step consumes at least one character, so
`l.length + 1` suffices). -/
def pySplitSepAux (sep : List Char) : Nat → List Char → List Char → List (List Char)
  | 0, acc, l => [acc.reverse ++ l]
  | _ + 1, acc, [] => [acc.reverse]
  | fuel + 1, acc, c :: cs =>
    if sep.isPrefixOf (c :: cs) then
      acc.reverse :: pySplitSepAux sep fuel [] ((c :: cs).drop sep.length)
    else pySplitSepAux sep fuel (c :: acc) cs

/-- Python's `s.split(sep)` on strings. -/
def pySplitSep (sep s : String) : List String :=
  (pySplitSepAux sep.data (s.data.length + 1) [] s.data).map String.mk

/-- `BlueskyMonitor._generate_post_url`: when the URI contains the marker
`app.bsky.feed.post/`, the post id is the part after its last occurrence
(`uri.split(marker)[-1]`); otherwise fall back to the profile URL.
Containment of the marker is equivalent to the split having at least two
pieces. -/
def generate_post_url (author_handle post_uri : String) : String :=
  let parts := pySplitSep "app.bsky.feed.post/" post_uri
  if parts.length ≥ 2 then
    "https://bsky.app/profile/" ++ author_handle ++ "/post/" ++ parts.getLastD ""
  else
    "https://bsky.app/profile/" ++ author_handle

/-- `BlueskyMonitor._extract_post_data`.  `tb` stands in for TextBlob.  The
`id` is `post_data.get('cid', '') or post_data.get('uri', '')` — Python's
`or` takes the cid when it is nonempty (truthy), else the uri. -/
def bluesky_extract_post_data (tb : String → TextBlobSentiment)
    (post : BskyPost) (keyword : String) : Mention :=
  let text := post.text.getD ""
  let sentiment := bluesky_analyze_sentiment tb text
  let author_handle := (post.author.bind (·.handle)).getD "unknown"
  let author_display_name := (post.author.bind (·.displayName)).getD author_handle
  let like_count := post.likeCount.getD 0
  let repost_count := post.repostCount.getD 0
  let reply_count := post.replyCount.getD 0
  let post_uri := post.uri.getD ""
  let post_url := generate_post_url author_handle post_uri
  ⟨"bluesky", "post",
   (if post.cid.getD "" ≠ "" then post.cid.getD "" else post_uri),
   "Post by @" ++ author_handle,
   text, author_handle, some author_display_name, none, post_url,
   like_count + repost_count, reply_count,
   some (post.createdAt.getD ""), keyword,
   sentiment.polarity, sentiment.label,
   [("like_count", .vint like_count),
    ("repost_count", .vint repost_count),
    ("reply_count", .vint reply_count),
    ("uri", .vstr post_uri),
    ("cid", .vstr (post.cid.getD "")),
    ("author_did", .vstr ((post.author.bind (·.did)).getD "")),
    ("author_avatar", .vstr ((post.author.bind (·.avatar)).getD "")),
    ("indexed_at", .vstr (post.indexedAt.getD ""))]⟩

/-- The top-level keys of the dict literal returned by
`BlueskyMonitor._extract_post_data`, in source order. -/
def bluesky_mention_keys : List String :=
  ["platform", "type", "id", "title", "content", "author",
   "author_display_name", "url", "score", "num_comments", "created_utc",
   "keyword_matched", "sentiment_score", "sentiment_label", "raw_data"]

/-- A raw Reddit submission as `RedditMonitor._extract_mention_data` reads
it.  praw always materializes these attributes, so only `author` (None for a
deleted account) and `distinguished` are optional.  `created_utc` is a unix
timestamp; its rendering through `datetime.fromtimestamp(...).isoformat()`
is external and is passed in as `isoOf`. -/
structure RedditPost where
  id : String
  title : String
  selftext : String
  author : Option String
  subreddit : String
  permalink : String
  score : Int
  num_comments : Int
  created_utc : Int
  upvote_ratio : Rat
  distinguished : Option String
  stickied : Bool
deriving DecidableEq, Repr

/-- `RedditMonitor._extract_mention_data`.  The sentiment text is
`f"{post.title} {post.selftext}"`; the author falls back to the
`'[deleted]'` sentinel. -/
def reddit_extract_mention_data (tb : String → TextBlobSentiment)
    (isoOf : Int → String) (post : RedditPost) (keyword : String) : Mention :=
  let text := post.title ++ " " ++ post.selftext
  let sentiment := reddit_analyze_sentiment tb text
  ⟨"reddit", "post", post.id, post.title, post.selftext,
   post.author.getD "[deleted]", none, some post.subreddit,
   "https://reddit.com" ++ post.permalink,
   post.score, post.num_comments,
   some (isoOf post.created_utc), keyword,
   sentiment.polarity, sentiment.label,
   [("upvote_ratio", .vrat post.upvote_ratio),
    ("distinguished", match post.distinguished with
      | some d => .vstr d
      | none => .vnone),
    ("stickied", .vbool post.stickied)]⟩

/-- The `public_metrics` dict of a raw tweet, read with
`metrics.get(key, 0)`, so every counter is optional. -/
structure TweetMetrics where
  like_count : Option Int
  retweet_count : Option Int
  reply_count : Option Int
  quote_count : Option Int
deriving DecidableEq, Repr

/-- A user object from the tweet search's `users_map`; the code reads it
with `getattr(user_info, key, default)`, so every field is optional. -/
structure TwitterUser where
  username : Option String
  name : Option String
  verified : Option Bool
deriving DecidableEq, Repr

/-- A raw tweet as `TwitterMonitor._extract_tweet_data` reads it.
`public_metrics` may be `None` (`tweet.public_metrics or {}`), `created_at`
may be `None` (then the mention stores `None`), and `lang` /
`context_annotations` are carried opaquely into `raw_data`. -/
structure TwitterTweet where
  id : Int
  text : String
  author_id : Int
  created_at : Option Int
  public_metrics : Option TweetMetrics
  lang : Option String
  context_annotations : Option (List String)
deriving DecidableEq, Repr

/-- `TwitterMonitor._extract_tweet_data`.  `users_map` models the
`users_map.get(tweet.author_id, {})` lookup (a missing entry behaves as the
empty dict), `isoOf` the external `created_at.isoformat()` rendering.  The
username falls back to the synthesized `user_<id>` handle, the score is
`like_count + retweet_count` with absent counters defaulting to 0, and the
stored `content` is `tweet.text` unaltered. -/
def twitter_extract_tweet_data (tb : String → TextBlobSentiment)
    (isoOf : Int → String) (users_map : Int → Option TwitterUser)
    (tweet : TwitterTweet) (keyword : String) : Mention :=
  let user_info := users_map tweet.author_id
  let username := (user_info.bind (·.username)).getD
    ("user_" ++ toString tweet.author_id)
  let display_name := (user_info.bind (·.name)).getD username
  let verified := (user_info.bind (·.verified)).getD false
  let sentiment := twitter_analyze_sentiment tb tweet.text
  let metrics := tweet.public_metrics.getD ⟨none, none, none, none⟩
  ⟨"twitter", "tweet", toString tweet.id,
   "Tweet by @" ++ username,
   tweet.text, username, some display_name, none,
   "https://twitter.com/" ++ username ++ "/status/" ++ toString tweet.id,
   metrics.like_count.getD 0 + metrics.retweet_count.getD 0,
   metrics.reply_count.getD 0,
   tweet.created_at.map isoOf,
   keyword, sentiment.polarity, sentiment.label,
   [("retweet_count", .vint (metrics.retweet_count.getD 0)),
    ("like_count", .vint (metrics.like_count.getD 0)),
    ("reply_count", .vint (metrics.reply_count.getD 0)),
    ("quote_count", .vint (metrics.quote_count.getD 0)),
    ("verified_user", .vbool verified),
    ("language", match tweet.lang with
      | some s => .vstr s
      | none => .vnone),
    ("context_annotations", .vstrList (tweet.context_annotations.getD []))]⟩

/-- `BlueskyMonitor._parse_timestamp`: an empty string or a string
`datetime.fromisoformat` rejects yields `None`; otherwise the string with
`Z` replaced by `+00:00` is parsed.  The external parser comes in as
`fromisoformat : String → Option Int` (timestamps as an abstract totally
ordered value, here `Int`); `none` models an exception. -/
def parse_timestamp (fromisoformat : String → Option Int)
    (timestamp_str : String) : Option Int :=
  if timestamp_str ≠ "" then fromisoformat (timestamp_str.replace "Z" "+00:00")
  else none

/-- The time-window decision in `BlueskyMonitor.search_mentions` (lines
62-65): `if post_time and post_time < cutoff_time: continue` — the record is
skipped exactly when the parse produced a value and that value is before the
cutoff; a `None` parse result is falsy, so nothing is skipped. -/
def time_window_skip (post_time : Option Int) (cutoff_time : Int) : Bool :=
  match post_time with
  | some t => decide (t < cutoff_time)
  | none => false

/-- The dict returned by `MentionBot.analyze_sentiment_summary`.  The
empty-input early return builds only the four count keys, so the remaining
keys are `Option` fields with `none` for an absent key. -/
structure SentimentSummary where
  total : Nat
  positive : Nat
  negative : Nat
  neutral : Nat
  average_sentiment : Option Rat
  positive_percentage : Option Rat
  negative_percentage : Option Rat
deriving DecidableEq, Repr

/-- `MentionBot.analyze_sentiment_summary`.  In the non-empty branch the
counts come from incrementing `sentiment_counts[label]` (the embedding
counts each of the three canonical labels; the source would raise a KeyError
on any other label, and the normalizers only produce these three), and the
`if mentions else 0` guard on the average is in its true branch, so the
division is by the nonzero length. -/
def analyze_sentiment_summary (mentions : List Mention) : SentimentSummary :=
  if mentions.isEmpty then ⟨0, 0, 0, 0, none, none, none⟩
  else
    let pos := mentions.countP (fun m => m.sentiment_label == "positive")
    let neg := mentions.countP (fun m => m.sentiment_label == "negative")
    let neu := mentions.countP (fun m => m.sentiment_label == "neutral")
    let total_score := (mentions.map (·.sentiment_score)).sum
    ⟨mentions.length, pos, neg, neu,
     some (total_score / (mentions.length : Rat)),
     some ((pos : Rat) / (mentions.length : Rat) * 100),
     some ((neg : Rat) / (mentions.length : Rat) * 100)⟩

/-- Insertion step of a stable descending sort by `score`: the incoming
element goes after every strictly greater element and before the first
element not strictly greater, hence after all its predecessors of equal
score (elements already in the list come later in the original order, see
`sortByScoreDesc`). -/
def insertByScore (m : Mention) : List Mention → List Mention
  | [] => [m]
  | x :: xs => if x.score > m.score then x :: insertByScore m xs else m :: x :: xs

/-- Stable descending insertion sort by `score`, the behavior of Python's
`sorted(mentions, key=lambda x: x.get('score', 0), reverse=True)` (which is
stable).  The fold inserts from the right, so every element is inserted
into a list of elements that follow it in the original order. -/
def sortByScoreDesc : List Mention → List Mention
  | [] => []
  | m :: ms => insertByScore m (sortByScoreDesc ms)

/-- `MentionBot.get_top_mentions`:
`sorted(mentions, key=lambda x: x.get('score', 0), reverse=True)[:limit]`. -/
def get_top_mentions (mentions : List Mention) (limit : Nat) : List Mention :=
  (sortByScoreDesc mentions).take limit

/-- The exit-code decision of `main` in `mention_bot.py`: a run that raises
(`MentionBot` construction or `run_check` failing) reaches `exit(2)`;
a completed run exits 1 when `summary['negative'] > summary['positive']`
and 0 otherwise.  `SystemExit` is not an `Exception`, so `exit(0)`/`exit(1)`
are not re-caught. -/
def main_exit_code (outcome : Except Unit SentimentSummary) : Nat :=
  match outcome with
  | .error _ => 2
  | .ok summary => if summary.negative > summary.positive then 1 else 0

/-- A scorer stub used to instantiate theorems at concrete inputs. -/
def tbZero : String → TextBlobSentiment := fun _ => ⟨0, 0⟩

/-- A timestamp rendering stub used to instantiate theorems at concrete
inputs. -/
def isoZero : Int → String := fun _ => "1970-01-01T00:00:00"

/-- A concrete raw Bluesky post whose `cid` is `"x"`. -/
def blueskyPostX : BskyPost :=
  ⟨some "ansible post", some "x", some "at://did:plc:z/app.bsky.feed.post/abc",
   some "2024-01-01T00:00:00Z", some "", some 2, some 1, some 0,
   some ⟨some "bob.bsky.social", some "Bob", some "did:plc:z", some ""⟩⟩

/-- A concrete raw Reddit post whose id is `"x"`. -/
def redditPostX : RedditPost :=
  ⟨"x", "Ansible rocks", "body mentions ansible", some "alice", "ansible",
   "/r/ansible/comments/x/", 3, 1, 0, 1, none, false⟩

/-- A concrete raw Bluesky post carrying a negative like counter and missing
repost/reply counters. -/
def negLikePost : BskyPost :=
  ⟨some "meh ansible", some "cid-neg", some "", some "", some "", some (-5),
   none, none, none⟩

/-- A concrete raw Bluesky post with like = 3, repost = 2 and the reply
counter absent. -/
def engagementPost : BskyPost :=
  ⟨some "ansible", some "cid-e", some "", some "", some "", some 3, some 2,
   none, none⟩

/-- A concrete text containing a URL. -/
def urlProbeText : String := "love this http://bad.example tool"

/-- A scorer that reports polarity 1 exactly when it is handed the raw
`urlProbeText` (so it detects whether cleaning happened before scoring). -/
def probeTB : String → TextBlobSentiment :=
  fun s => if s = urlProbeText then ⟨1, 0⟩ else ⟨0, 0⟩

/-- A plain nonempty text used to instantiate theorems. -/
def goodText : String := "good ansible"

/-- A concrete raw tweet. -/
def tweetX : TwitterTweet :=
  ⟨77, "try ansible", 9, some 0, some ⟨some 4, some 1, some 0, some 0⟩,
   some "en", some []⟩

/-- A users map with no entries (every author falls back to the synthesized
handle). -/
def usersMapEmpty : Int → Option TwitterUser := fun _ => none

end AnsibleMentionBot

namespace AnsibleMentionBot

lemma dedupGo_no_empty_id (l : List Mention) :
    ∀ seen, (dedupGo seen l).filter (fun m => m.id == "") = [] := by
  induction l with
  | nil => intro seen; rfl
  | cons m ms ih =>
    intro seen
    by_cases h : m.id ≠ "" ∧ m.id ∉ seen
    · have hid : (m.id == "") = false := by
        simpa using h.1
      simp only [dedupGo, if_pos h, List.filter_cons, hid]
      exact ih (m.id :: seen)
    · simp only [dedupGo, if_neg h]
      exact ih seen

lemma dedupGo_ids_nodup (l : List Mention) : ∀ seen : List String,
    ((dedupGo seen l).map (·.id)).Nodup ∧
      ∀ s ∈ (dedupGo seen l).map (·.id), s ∉ seen := by
  induction l with
  | nil =>
    intro seen
    refine ⟨List.nodup_nil, ?_⟩
    intro s hs
    simp [dedupGo] at hs
  | cons m ms ih =>
    intro seen
    by_cases h : m.id ≠ "" ∧ m.id ∉ seen
    · obtain ⟨ihn, ihs⟩ := ih (m.id :: seen)
      simp only [dedupGo, if_pos h, List.map_cons]
      constructor
      · refine List.nodup_cons.mpr ⟨?_, ihn⟩
        intro hmem
        exact (ihs _ hmem) (List.mem_cons_self _ _)
      · intro s hs
        rcases List.mem_cons.mp hs with rfl | hs'
        · exact h.2
        · intro hseen
          exact (ihs _ hs') (List.mem_cons_of_mem _ hseen)
    · simp only [dedupGo, if_neg h]
      exact ih seen

/-- C1: counterexample.  The claim says a mention whose `id` is empty is
always present in the deduplicator's output; on the code
(`if post_id and post_id not in seen_ids:`) an empty id is falsy, so the
mention is skipped: deduplicating a one-element list holding an empty-id
mention returns the empty list. -/
theorem C1_counterexample :
    deduplicate_mentions [emptyIdMention] = [] ∧ emptyIdMention.id = "" := by
  exact ⟨by decide, rfl⟩

/-- C1 (amended): the deduplicator drops every record whose `id` is empty —
no empty-id mention ever appears in its output. -/
theorem C1_theorem : ∀ mentions : List Mention,
    (deduplicate_mentions mentions).filter (fun m => m.id == "") = [] := by
  intro mentions
  exact dedupGo_no_empty_id mentions []

/-- C4: for every record whose timestamp string cannot be parsed (the parse
comes back `None`), the time-window decision never skips the record,
whatever the cutoff (hence whatever `hours_back`) is. -/
theorem C4_theorem (fromisoformat : String → Option Int)
    (timestamp_str : String) (cutoff_time : Int)
    (h : parse_timestamp fromisoformat timestamp_str = none) :
    time_window_skip (parse_timestamp fromisoformat timestamp_str) cutoff_time
      = false := by
  rw [h]
  rfl

/-- C4 witness: a parser that rejects everything, an arbitrary garbage
string, and an arbitrary cutoff. -/
theorem C4_witness :
    time_window_skip (parse_timestamp (fun _ => none) "not-a-timestamp") 12345
      = false :=
  C4_theorem (fun _ => none) "not-a-timestamp" 12345 rfl

lemma labelOf_pos {p : Rat} (h : p > 1/10) : labelOfPolarity p = "positive" := by
  unfold labelOfPolarity
  rw [if_pos h]

lemma labelOf_neg {p : Rat} (h1 : ¬ p > 1/10) (h2 : p < -(1/10)) :
    labelOfPolarity p = "negative" := by
  unfold labelOfPolarity
  rw [if_neg h1, if_pos h2]

lemma labelOf_neutral {p : Rat} (h1 : ¬ p > 1/10) (h2 : ¬ p < -(1/10)) :
    labelOfPolarity p = "neutral" := by
  unfold labelOfPolarity
  rw [if_neg h1, if_neg h2]

lemma labelOf_zero : labelOfPolarity 0 = "neutral" :=
  labelOf_neutral (by norm_num) (by norm_num)

/-- C5: the label is derived exactly as `polarity > 0.1` positive,
`polarity < -0.1` negative, otherwise neutral; polarity `0.1` and `-0.1`
both give neutral; and in each monitor's sentiment analyzer the label of the
result is this function of the result's polarity. -/
theorem C5_theorem : ∀ polarity : Rat,
    (labelOfPolarity polarity = "positive" ↔ polarity > 1/10) ∧
    (labelOfPolarity polarity = "negative" ↔ polarity < -(1/10)) ∧
    (labelOfPolarity polarity = "neutral" ↔
      ¬ polarity > 1/10 ∧ ¬ polarity < -(1/10)) ∧
    labelOfPolarity (1/10) = "neutral" ∧
    labelOfPolarity (-(1/10)) = "neutral" ∧
    (∀ tb text, (reddit_analyze_sentiment tb text).label =
      labelOfPolarity (reddit_analyze_sentiment tb text).polarity) ∧
    (∀ tb text, (twitter_analyze_sentiment tb text).label =
      labelOfPolarity (twitter_analyze_sentiment tb text).polarity) ∧
    (∀ tb text, (bluesky_analyze_sentiment tb text).label =
      labelOfPolarity (bluesky_analyze_sentiment tb text).polarity) := by
  intro p
  refine ⟨?_, ?_, ?_, labelOf_neutral (by norm_num) (by norm_num),
    labelOf_neutral (by norm_num) (by norm_num), ?_, ?_, ?_⟩
  · constructor
    · intro hl
      by_contra h1
      by_cases h2 : p < -(1/10)
      · rw [labelOf_neg h1 h2] at hl
        exact absurd hl (by decide)
      · rw [labelOf_neutral h1 h2] at hl
        exact absurd hl (by decide)
    · exact labelOf_pos
  · constructor
    · intro hl
      by_cases h1 : p > 1/10
      · rw [labelOf_pos h1] at hl
        exact absurd hl (by decide)
      · by_cases h2 : p < -(1/10)
        · exact h2
        · rw [labelOf_neutral h1 h2] at hl
          exact absurd hl (by decide)
    · intro h2
      have h1 : ¬ p > 1/10 := by
        intro h1
        have : (1:Rat)/10 < -(1/10) := lt_trans h1 h2
        norm_num at this
      exact labelOf_neg h1 h2
  · constructor
    · intro hl
      constructor
      · intro h1
        rw [labelOf_pos h1] at hl
        exact absurd hl (by decide)
      · intro h2
        by_cases h1 : p > 1/10
        · rw [labelOf_pos h1] at hl
          exact absurd hl (by decide)
        · rw [labelOf_neg h1 h2] at hl
          exact absurd hl (by decide)
    · intro h
      exact labelOf_neutral h.1 h.2
  · intro tb text
    by_cases h : text = "" ∨ pyIsSpace text
    · simp only [reddit_analyze_sentiment, if_pos h]
      exact labelOf_zero.symm
    · simp only [reddit_analyze_sentiment, if_neg h]
  · intro tb text
    by_cases h : text = "" ∨ pyIsSpace text
    · simp only [twitter_analyze_sentiment, if_pos h]
      exact labelOf_zero.symm
    · simp only [twitter_analyze_sentiment, if_neg h]
  · intro tb text
    by_cases h : text = "" ∨ pyIsSpace text
    · simp only [bluesky_analyze_sentiment, if_pos h]
      exact labelOf_zero.symm
    · simp only [bluesky_analyze_sentiment, if_neg h]

/-- C6: counterexample.  The claim says aggregating an empty mention list
yields a summary with `average_sentiment = 0`; the code's empty-input early
return builds `{'total': 0, 'positive': 0, 'negative': 0, 'neutral': 0}`
with no `average_sentiment` key at all, modeled as `none`. -/
theorem C6_counterexample :
    (analyze_sentiment_summary []).total = 0 ∧
    (analyze_sentiment_summary []).average_sentiment = none ∧
    ¬ (analyze_sentiment_summary []).average_sentiment = some 0 := by
  refine ⟨rfl, rfl, by decide⟩

/-- C6 (amended): aggregating an empty mention list yields total 0 and zero
counts with the `average_sentiment` (and percentage) keys absent, and no
division is performed. -/
theorem C6_theorem :
    analyze_sentiment_summary [] = ⟨0, 0, 0, 0, none, none, none⟩ := rfl

/-- C9: exit code 0 exactly when the completed run's negative count is at
most the positive count, 1 exactly when the negative count exceeds the
positive count, and 2 exactly when the run failed to complete. -/
theorem C9_theorem : ∀ summary : SentimentSummary,
    (main_exit_code (Except.ok summary) = 0 ↔ summary.negative ≤ summary.positive) ∧
    (main_exit_code (Except.ok summary) = 1 ↔ summary.positive < summary.negative) ∧
    (∀ e : Unit, main_exit_code (Except.error e) = 2) ∧
    (∀ outcome : Except Unit SentimentSummary,
      main_exit_code outcome = 2 ↔ ∃ e, outcome = Except.error e) := by
  intro s
  refine ⟨?_, ?_, fun e => rfl, ?_⟩
  · simp only [main_exit_code]
    split <;> omega
  · simp only [main_exit_code]
    split <;> omega
  · intro outcome
    cases outcome with
    | error e => simp [main_exit_code]
    | ok s' =>
      simp only [main_exit_code]
      constructor
      · intro h
        split at h <;> omega
      · rintro ⟨e, he⟩
        exact absurd he (by simp)

/-- C2: counterexample.  The claim says every normalized mention has
`score ≥ 0` even for negative engagement inputs; a raw Bluesky post with
`likeCount = -5` normalizes to `score = -5 < 0` (the code sums the raw
counters without clamping). -/
theorem C2_counterexample :
    (bluesky_extract_post_data tbZero negLikePost "ansible").score = -5 ∧
    (bluesky_extract_post_data tbZero negLikePost "ansible").score < 0 := by
  exact ⟨by decide, by decide⟩

/-- C2 (amended): missing engagement counts default to 0 and the Bluesky
score is the sum of the like and repost counters — nonnegative whenever
those counters are nonnegative, but negative counters pass through; the
Reddit normalizer passes the raw post score through unchanged (it can be
negative). -/
theorem C2_theorem (tb : String → TextBlobSentiment) (post : BskyPost)
    (keyword : String) (isoOf : Int → String) (rpost : RedditPost)
    (rkeyword : String)
    (hlike : 0 ≤ post.likeCount.getD 0)
    (hrepost : 0 ≤ post.repostCount.getD 0) :
    (bluesky_extract_post_data tb post keyword).score =
      post.likeCount.getD 0 + post.repostCount.getD 0 ∧
    0 ≤ (bluesky_extract_post_data tb post keyword).score ∧
    (bluesky_extract_post_data tb post keyword).num_comments =
      post.replyCount.getD 0 ∧
    (reddit_extract_mention_data tb isoOf rpost rkeyword).score = rpost.score := by
  refine ⟨rfl, ?_, rfl, rfl⟩
  exact add_nonneg hlike hrepost

/-- C2 witness: the spec's own engagement example — like = 3, repost = 2,
reply counter missing — instantiated for the Bluesky normalizer, together
with the Reddit pass-through. -/
theorem C2_witness :
    (bluesky_extract_post_data tbZero engagementPost "ansible").score =
      engagementPost.likeCount.getD 0 + engagementPost.repostCount.getD 0 ∧
    0 ≤ (bluesky_extract_post_data tbZero engagementPost "ansible").score ∧
    (bluesky_extract_post_data tbZero engagementPost "ansible").num_comments =
      engagementPost.replyCount.getD 0 ∧
    (reddit_extract_mention_data tbZero isoZero redditPostX "ansible").score =
      redditPostX.score :=
  C2_theorem tbZero engagementPost "ansible" isoZero redditPostX "ansible"
    (by decide) (by decide)

/-- C3: counterexample.  The claim says no two mentions with the same
non-empty id both appear in the set handed to aggregation; a Reddit mention
and a Bluesky mention that both carry id `"x"` both survive
`collect_mentions`, which only concatenates the per-source lists. -/
theorem C3_counterexample :
    (collect_mentions
        [reddit_extract_mention_data tbZero isoZero redditPostX "ansible"] []
        (bluesky_search_result
          [bluesky_extract_post_data tbZero blueskyPostX "ansible"] 100)).countP
      (fun m => m.id == "x") = 2 ∧ ("x" : String) ≠ "" := by
  exact ⟨by decide, by decide⟩

/-- C3 (amended): deduplication happens only inside the Bluesky source —
its contribution carries pairwise distinct ids — while the orchestrator
concatenates the per-source lists without any cross-source deduplication. -/
theorem C3_theorem :
    ∀ (reddit_mentions twitter_mentions bluesky_candidates : List Mention)
      (max_results : Nat),
    collect_mentions reddit_mentions twitter_mentions
        (bluesky_search_result bluesky_candidates max_results) =
      reddit_mentions ++ twitter_mentions ++
        bluesky_search_result bluesky_candidates max_results ∧
    ((bluesky_search_result bluesky_candidates max_results).map (·.id)).Nodup := by
  intro rs ts bs n
  refine ⟨rfl, ?_⟩
  have h := (dedupGo_ids_nodup bs []).1
  have hsub : (((deduplicate_mentions bs).take n).map (·.id)).Sublist
      ((deduplicate_mentions bs).map (·.id)) :=
    (List.take_sublist n (deduplicate_mentions bs)).map (·.id)
  exact h.sublist hsub

/-- C7: counterexample.  The claim says every source's scorer input is the
cleaned text; the probe scorer reports 1 only when handed the raw URL-bearing
text, and the Reddit analyzer produces polarity 1 — it fed the raw text —
while the Twitter and Bluesky analyzers produce 0, having cleaned first. -/
theorem C7_counterexample :
    (reddit_analyze_sentiment probeTB urlProbeText).polarity = 1 ∧
    (twitter_analyze_sentiment probeTB urlProbeText).polarity = 0 ∧
    (bluesky_analyze_sentiment probeTB urlProbeText).polarity = 0 ∧
    twitter_clean_text_for_sentiment urlProbeText ≠ urlProbeText := by
  refine ⟨by decide, by decide, by decide, by decide⟩

/-- C7 (amended): the Twitter and Bluesky analyzers feed the cleaned text to
the scorer while the stored `content` of a normalized mention is the
unaltered original text; the Reddit analyzer feeds the raw text with no
cleaning. -/
theorem C7_theorem (tb : String → TextBlobSentiment) (text : String)
    (post : BskyPost) (keyword : String) (isoOf : Int → String)
    (rpost : RedditPost) (rkeyword : String)
    (users_map : Int → Option TwitterUser) (tweet : TwitterTweet)
    (tkeyword : String)
    (h : ¬ (text = "" ∨ pyIsSpace text)) :
    (twitter_analyze_sentiment tb text).polarity =
      (tb (twitter_clean_text_for_sentiment text)).polarity ∧
    (bluesky_analyze_sentiment tb text).polarity =
      (tb (bluesky_clean_text_for_sentiment text)).polarity ∧
    (reddit_analyze_sentiment tb text).polarity = (tb text).polarity ∧
    (twitter_extract_tweet_data tb isoOf users_map tweet tkeyword).content =
      tweet.text ∧
    (bluesky_extract_post_data tb post keyword).content = post.text.getD "" ∧
    (reddit_extract_mention_data tb isoOf rpost rkeyword).content =
      rpost.selftext := by
  refine ⟨?_, ?_, ?_, rfl, rfl, rfl⟩
  · simp only [twitter_analyze_sentiment, if_neg h]
  · simp only [bluesky_analyze_sentiment, if_neg h]
  · simp only [reddit_analyze_sentiment, if_neg h]

/-- C7 witness: the amended statement at a concrete scorer, text and raw
posts. -/
theorem C7_witness :
    (twitter_analyze_sentiment tbZero goodText).polarity =
      (tbZero (twitter_clean_text_for_sentiment goodText)).polarity ∧
    (bluesky_analyze_sentiment tbZero goodText).polarity =
      (tbZero (bluesky_clean_text_for_sentiment goodText)).polarity ∧
    (reddit_analyze_sentiment tbZero goodText).polarity =
      (tbZero goodText).polarity ∧
    (twitter_extract_tweet_data tbZero isoZero usersMapEmpty tweetX
      "ansible").content = tweetX.text ∧
    (bluesky_extract_post_data tbZero blueskyPostX "ansible").content =
      blueskyPostX.text.getD "" ∧
    (reddit_extract_mention_data tbZero isoZero redditPostX "ansible").content =
      redditPostX.selftext :=
  C7_theorem tbZero goodText blueskyPostX "ansible" isoZero redditPostX
    "ansible" usersMapEmpty tweetX "ansible" (by decide)

/-- C10: counterexample.  The claim says every normalized mention carries a
subjectivity in [0,1], also on empty or whitespace-only text; the mention
dict built by the Bluesky normalizer has no subjectivity key at all, and the
empty-text short-circuit of the analyzers returns a sentiment dict without
the subjectivity key. -/
theorem C10_counterexample :
    "subjectivity" ∉ bluesky_mention_keys ∧
    "sentiment_subjectivity" ∉ bluesky_mention_keys ∧
    (reddit_analyze_sentiment tbZero "").subjectivity = none ∧
    (bluesky_analyze_sentiment tbZero "   ").subjectivity = none := by
  refine ⟨by decide, by decide, by decide, by decide⟩

/-- C10 (amended): for non-empty, non-whitespace text the sentiment result
carries the scorer's subjectivity — in [0,1] whenever the scorer's is — but
the empty-text short-circuit omits it, and the normalized mention record
does not include a subjectivity key at all. -/
theorem C10_theorem (tb : String → TextBlobSentiment) (text : String)
    (hrange : ∀ t, 0 ≤ (tb t).subjectivity ∧ (tb t).subjectivity ≤ 1)
    (h : ¬ (text = "" ∨ pyIsSpace text)) :
    (bluesky_analyze_sentiment tb text).subjectivity =
      some ((tb (bluesky_clean_text_for_sentiment text)).subjectivity) ∧
    0 ≤ (tb (bluesky_clean_text_for_sentiment text)).subjectivity ∧
    (tb (bluesky_clean_text_for_sentiment text)).subjectivity ≤ 1 ∧
    (reddit_analyze_sentiment tb text).subjectivity = some ((tb text).subjectivity) ∧
    0 ≤ (tb text).subjectivity ∧ (tb text).subjectivity ≤ 1 ∧
    "subjectivity" ∉ bluesky_mention_keys := by
  refine ⟨?_, (hrange _).1, (hrange _).2, ?_, (hrange _).1, (hrange _).2,
    by decide⟩
  · simp only [bluesky_analyze_sentiment, if_neg h]
  · simp only [reddit_analyze_sentiment, if_neg h]

/-- C10 witness: the amended statement at a concrete scorer and text. -/
theorem C10_witness :
    (bluesky_analyze_sentiment tbZero goodText).subjectivity =
      some ((tbZero (bluesky_clean_text_for_sentiment goodText)).subjectivity) ∧
    0 ≤ (tbZero (bluesky_clean_text_for_sentiment goodText)).subjectivity ∧
    (tbZero (bluesky_clean_text_for_sentiment goodText)).subjectivity ≤ 1 ∧
    (reddit_analyze_sentiment tbZero goodText).subjectivity =
      some ((tbZero goodText).subjectivity) ∧
    0 ≤ (tbZero goodText).subjectivity ∧ (tbZero goodText).subjectivity ≤ 1 ∧
    "subjectivity" ∉ bluesky_mention_keys :=
  C10_theorem tbZero goodText (fun _ => ⟨le_refl 0, zero_le_one⟩) (by decide)

lemma insertByScore_perm (m : Mention) (l : List Mention) :
    (insertByScore m l).Perm (m :: l) := by
  induction l with
  | nil => exact List.Perm.refl _
  | cons x xs ih =>
    by_cases h : x.score > m.score
    · simp only [insertByScore, if_pos h]
      exact (ih.cons x).trans (List.Perm.swap m x xs)
    · simp only [insertByScore, if_neg h]
      exact List.Perm.refl _

lemma sortByScoreDesc_perm (l : List Mention) : (sortByScoreDesc l).Perm l := by
  induction l with
  | nil => exact List.Perm.refl _
  | cons m ms ih =>
    exact (insertByScore_perm m (sortByScoreDesc ms)).trans (ih.cons m)

lemma pairwise_insertByScore (m : Mention) (l : List Mention)
    (h : l.Pairwise (fun a b => b.score ≤ a.score)) :
    (insertByScore m l).Pairwise (fun a b => b.score ≤ a.score) := by
  induction l with
  | nil => simp [insertByScore]
  | cons x xs ih =>
    rcases List.pairwise_cons.mp h with ⟨hx, hxs⟩
    by_cases hc : x.score > m.score
    · simp only [insertByScore, if_pos hc]
      refine List.pairwise_cons.mpr ⟨?_, ih hxs⟩
      intro y hy
      rcases List.mem_cons.mp ((insertByScore_perm m xs).mem_iff.mp hy) with
        rfl | hy'
      · exact le_of_lt hc
      · exact hx y hy'
    · simp only [insertByScore, if_neg hc]
      have hm : x.score ≤ m.score := le_of_not_lt hc
      refine List.pairwise_cons.mpr ⟨?_, h⟩
      intro y hy
      rcases List.mem_cons.mp hy with rfl | hy'
      · exact hm
      · exact le_trans (hx y hy') hm

lemma sortByScoreDesc_pairwise (l : List Mention) :
    (sortByScoreDesc l).Pairwise (fun a b => b.score ≤ a.score) := by
  induction l with
  | nil => exact List.Pairwise.nil
  | cons m ms ih => exact pairwise_insertByScore m (sortByScoreDesc ms) ih

lemma filter_insertByScore_eq {m : Mention} {s : Int} (hm : m.score = s)
    (l : List Mention) :
    (insertByScore m l).filter (fun x => x.score == s) =
      m :: l.filter (fun x => x.score == s) := by
  induction l with
  | nil =>
    have hms : (m.score == s) = true := by simp [hm]
    simp [insertByScore, List.filter, hms]
  | cons x xs ih =>
    by_cases hc : x.score > m.score
    · have hxs : (x.score == s) = false := by
        rw [hm] at hc
        simp only [beq_eq_false_iff_ne]
        omega
      simp only [insertByScore, if_pos hc, List.filter_cons, hxs]
      simpa [hxs] using ih
    · have hms : (m.score == s) = true := by simp [hm]
      simp [insertByScore, if_neg hc, List.filter_cons, hms]

lemma filter_insertByScore_ne {m : Mention} {s : Int} (hm : ¬ m.score = s)
    (l : List Mention) :
    (insertByScore m l).filter (fun x => x.score == s) =
      l.filter (fun x => x.score == s) := by
  induction l with
  | nil =>
    have hms : (m.score == s) = false := by simp [hm]
    simp [insertByScore, List.filter, hms]
  | cons x xs ih =>
    by_cases hc : x.score > m.score
    · simp only [insertByScore, if_pos hc, List.filter_cons, ih]
    · have hms : (m.score == s) = false := by simp [hm]
      simp [insertByScore, if_neg hc, List.filter_cons, hms]

lemma sortByScoreDesc_filter (l : List Mention) (s : Int) :
    (sortByScoreDesc l).filter (fun x => x.score == s) =
      l.filter (fun x => x.score == s) := by
  induction l with
  | nil => rfl
  | cons m ms ih =>
    by_cases hm : m.score = s
    · rw [sortByScoreDesc, filter_insertByScore_eq hm, ih, List.filter_cons]
      simp [hm]
    · rw [sortByScoreDesc, filter_insertByScore_ne hm, ih, List.filter_cons]
      simp [hm]

/-- C8: the top-N view has at most N elements, is sorted by descending
score, is a permutation-preserving (stable) sort — for every score value,
the elements of that score appear in the sorted list exactly as they appear
in the input, and the truncated view keeps them as a subsequence of that
original order. -/
theorem C8_theorem : ∀ (mentions : List Mention) (limit : Nat) (s : Int),
    (get_top_mentions mentions limit).length ≤ limit ∧
    (get_top_mentions mentions limit).Pairwise (fun a b => b.score ≤ a.score) ∧
    (sortByScoreDesc mentions).Perm mentions ∧
    (sortByScoreDesc mentions).filter (fun x => x.score == s) =
      mentions.filter (fun x => x.score == s) ∧
    ((get_top_mentions mentions limit).filter (fun x => x.score == s)).Sublist
      (mentions.filter (fun x => x.score == s)) := by
  intro mentions limit s
  refine ⟨?_, ?_, sortByScoreDesc_perm mentions,
    sortByScoreDesc_filter mentions s, ?_⟩
  · exact List.length_take_le limit (sortByScoreDesc mentions)
  · exact (sortByScoreDesc_pairwise mentions).sublist
      (List.take_sublist limit (sortByScoreDesc mentions))
  · have h1 : (get_top_mentions mentions limit).Sublist (sortByScoreDesc mentions) :=
      List.take_sublist limit (sortByScoreDesc mentions)
    have h2 := h1.filter (fun x => x.score == s)
    rw [sortByScoreDesc_filter] at h2
    exact h2

end AnsibleMentionBot
